import Mathlib

/-!
Shallow embedding of the 2D vector-graphics drawing context of
`src/vlVG/VectorGraphics.hpp` (class `vl::VectorGraphics` and its internal
`State` value type), together with proofs about its state ordering, the
style-resource / clip-region canonicalization caches and the stack-based
save/restore discipline.

Modelling conventions:
* C++ `float`/`double` fields are modelled as rationals (`ℚ`): the code only
  compares them with `!=` and `<`, never performs arithmetic on them, so any
  linearly ordered field is a faithful model of the finite well-ordered
  values actually stored.
* Enumeration values (`ETextureMode`, `ELogicOp`, `EBlendEquation`,
  `EBlendFactor`, `EFunction`, `EStencilOp`) are modelled as `Nat` codes;
  the code only compares them with `!=` and `<`.
* Pointers (`Image*`, `Font*`, `Transform*`) are modelled as `Nat` handles,
  `0` standing for `NULL`; the code only compares them for identity.
* `unsigned short` / `unsigned int` fields are modelled as `Nat`; the code
  never performs arithmetic on them.
* Member-function bodies that live in the (not provided) `VectorGraphics.cpp`
  are modelled from the spec; each such definition carries a doc comment
  starting with `Modelled from the spec:`.
-/

/-- Enumeration code for `TextureMode_Clamp` (first enumerator of
`ETextureMode`). -/
def textureModeClamp : Nat := 0

/-- Enumeration code for `LO_COPY` (the `ELogicOp` default used by
`State::State()`). -/
def loCopy : Nat := 3

/-- Enumeration code for `BE_FUNC_ADD` (`EBlendEquation`). -/
def beFuncAdd : Nat := 0

/-- Enumeration code for `BF_SRC_ALPHA` (`EBlendFactor`). -/
def bfSrcAlpha : Nat := 6

/-- Enumeration code for `BF_ONE_MINUS_SRC_ALPHA` (`EBlendFactor`). -/
def bfOneMinusSrcAlpha : Nat := 7

/-- Enumeration code for `FU_ALWAYS` (`EFunction`). -/
def fuAlways : Nat := 7

/-- Enumeration code for `SO_KEEP` (`EStencilOp`). -/
def soKeep : Nat := 0

/-- Handle of the font returned by
`defFontManager()->acquireFont("/font/bitstream-vera/VeraMono.ttf", 10, false)`;
the font-acquisition service is idempotent, so the default constructor always
receives this same handle (a non-`NULL` pointer, hence nonzero). -/
def defaultFontHandle : Nat := 1

/-- The `vl::VectorGraphics::State` value type: every attribute that affects
how a primitive is rendered.  Field names and declaration order follow the
source.  `mColor` (`fvec4`) and `mColorMask` (`ivec4`) are flattened into
their four components; `mPolyStipple` (`unsigned char[32*32/8]`) is a list of
128 byte values. -/
@[ext]
structure State where
  mColorR : ℚ
  mColorG : ℚ
  mColorB : ℚ
  mColorA : ℚ
  mPointSize : Int
  mImage : Nat
  mTextureMode : Nat
  mLogicOp : Nat
  mLineWidth : ℚ
  mPointSmoothing : Bool
  mLineSmoothing : Bool
  mPolygonSmoothing : Bool
  mLineStipple : Nat
  mPolyStipple : List Nat
  mBlendEquationRGB : Nat
  mBlendEquationAlpha : Nat
  mBlendFactorSrcRGB : Nat
  mBlendFactorDstRGB : Nat
  mBlendFactorSrcAlpha : Nat
  mBlendFactorDstAlpha : Nat
  mAlphaFuncRefValue : ℚ
  mAlphaFunc : Nat
  mFont : Nat
  mColorMaskR : Int
  mColorMaskG : Int
  mColorMaskB : Int
  mColorMaskA : Int
  mStencilTestEnabled : Bool
  mStencilMask : Nat
  mStencil_SFail : Nat
  mStencil_DpFail : Nat
  mStencil_DpPass : Nat
  mStencil_Function : Nat
  mStencil_RefValue : Int
  mStencil_FunctionMask : Nat
deriving DecidableEq

/-- The `State::State()` constructor.  The source assigns `mStencil_SFail`
twice (`mStencil_SFail = SO_KEEP; mStencil_SFail = SO_KEEP;`) and never
assigns `mStencil_DpPass`, so after construction that member holds an
indeterminate value; the parameter `dppass0` stands for that indeterminate
initial content. -/
def State.init (dppass0 : Nat) : State where
  mColorR := 1
  mColorG := 1
  mColorB := 1
  mColorA := 1
  mPointSize := 5
  mImage := 0
  mTextureMode := textureModeClamp
  mLogicOp := loCopy
  mLineWidth := 1
  mPointSmoothing := true
  mLineSmoothing := true
  mPolygonSmoothing := false
  mLineStipple := 0xFFFF
  mPolyStipple := List.replicate 128 0xFF
  mBlendEquationRGB := beFuncAdd
  mBlendEquationAlpha := beFuncAdd
  mBlendFactorSrcRGB := bfSrcAlpha
  mBlendFactorDstRGB := bfOneMinusSrcAlpha
  mBlendFactorSrcAlpha := bfSrcAlpha
  mBlendFactorDstAlpha := bfOneMinusSrcAlpha
  mAlphaFuncRefValue := 0
  mAlphaFunc := fuAlways
  mFont := defaultFontHandle
  mColorMaskR := 1
  mColorMaskG := 1
  mColorMaskB := 1
  mColorMaskA := 1
  mStencilTestEnabled := false
  mStencilMask := 0xFFFFFFFF
  mStencil_SFail := soKeep
  mStencil_DpFail := soKeep
  mStencil_DpPass := dppass0
  mStencil_Function := fuAlways
  mStencil_RefValue := 0
  mStencil_FunctionMask := 0xFFFFFFFF

/-- The baseline default state documented by the spec; used by the modelled
session operations (`clear`, `continueDrawing`).  The spec's documented
baseline takes `SO_KEEP` for the stencil depth-pass operation (the source
constructor leaves that member indeterminate; see `State.init`). -/
def State.default : State := State.init soKeep

/-- `memcmp` over byte sequences: three-way lexicographic comparison, as
`memcmp(mPolyStipple, other.mPolyStipple, 32*32/8)` behaves on the two
equal-length 128-byte arrays. -/
def memcmpBytes : List Nat → List Nat → Ordering
  | [], [] => Ordering.eq
  | [], _ :: _ => Ordering.lt
  | _ :: _, [] => Ordering.gt
  | x :: xs, y :: ys =>
    if x < y then Ordering.lt
    else if y < x then Ordering.gt
    else memcmpBytes xs ys

/-- `State::operator<`: lexicographic comparison of the fields in the exact
order the source compares them (note that the three smoothing flags are
compared polygon, point, line, and that `mLogicOp` is compared after
`mLineStipple`, matching the source rather than the declaration order). -/
def stateLt (s o : State) : Bool :=
  if s.mColorR ≠ o.mColorR then decide (s.mColorR < o.mColorR) else
  if s.mColorG ≠ o.mColorG then decide (s.mColorG < o.mColorG) else
  if s.mColorB ≠ o.mColorB then decide (s.mColorB < o.mColorB) else
  if s.mColorA ≠ o.mColorA then decide (s.mColorA < o.mColorA) else
  if s.mPointSize ≠ o.mPointSize then decide (s.mPointSize < o.mPointSize) else
  if s.mImage ≠ o.mImage then decide (s.mImage < o.mImage) else
  if s.mTextureMode ≠ o.mTextureMode then decide (s.mTextureMode < o.mTextureMode) else
  if s.mPolygonSmoothing ≠ o.mPolygonSmoothing then decide (s.mPolygonSmoothing < o.mPolygonSmoothing) else
  if s.mPointSmoothing ≠ o.mPointSmoothing then decide (s.mPointSmoothing < o.mPointSmoothing) else
  if s.mLineSmoothing ≠ o.mLineSmoothing then decide (s.mLineSmoothing < o.mLineSmoothing) else
  if s.mLineWidth ≠ o.mLineWidth then decide (s.mLineWidth < o.mLineWidth) else
  if s.mLineStipple ≠ o.mLineStipple then decide (s.mLineStipple < o.mLineStipple) else
  if s.mLogicOp ≠ o.mLogicOp then decide (s.mLogicOp < o.mLogicOp) else
  if memcmpBytes s.mPolyStipple o.mPolyStipple ≠ Ordering.eq then
    decide (memcmpBytes s.mPolyStipple o.mPolyStipple = Ordering.lt) else
  if s.mBlendEquationRGB ≠ o.mBlendEquationRGB then decide (s.mBlendEquationRGB < o.mBlendEquationRGB) else
  if s.mBlendEquationAlpha ≠ o.mBlendEquationAlpha then decide (s.mBlendEquationAlpha < o.mBlendEquationAlpha) else
  if s.mBlendFactorSrcRGB ≠ o.mBlendFactorSrcRGB then decide (s.mBlendFactorSrcRGB < o.mBlendFactorSrcRGB) else
  if s.mBlendFactorDstRGB ≠ o.mBlendFactorDstRGB then decide (s.mBlendFactorDstRGB < o.mBlendFactorDstRGB) else
  if s.mBlendFactorSrcAlpha ≠ o.mBlendFactorSrcAlpha then decide (s.mBlendFactorSrcAlpha < o.mBlendFactorSrcAlpha) else
  if s.mBlendFactorDstAlpha ≠ o.mBlendFactorDstAlpha then decide (s.mBlendFactorDstAlpha < o.mBlendFactorDstAlpha) else
  if s.mAlphaFuncRefValue ≠ o.mAlphaFuncRefValue then decide (s.mAlphaFuncRefValue < o.mAlphaFuncRefValue) else
  if s.mAlphaFunc ≠ o.mAlphaFunc then decide (s.mAlphaFunc < o.mAlphaFunc) else
  if s.mFont ≠ o.mFont then decide (s.mFont < o.mFont) else
  if s.mColorMaskR ≠ o.mColorMaskR then decide (s.mColorMaskR < o.mColorMaskR) else
  if s.mColorMaskG ≠ o.mColorMaskG then decide (s.mColorMaskG < o.mColorMaskG) else
  if s.mColorMaskB ≠ o.mColorMaskB then decide (s.mColorMaskB < o.mColorMaskB) else
  if s.mColorMaskA ≠ o.mColorMaskA then decide (s.mColorMaskA < o.mColorMaskA) else
  if s.mStencilMask ≠ o.mStencilMask then decide (s.mStencilMask < o.mStencilMask) else
  if s.mStencilTestEnabled ≠ o.mStencilTestEnabled then decide (s.mStencilTestEnabled < o.mStencilTestEnabled) else
  if s.mStencil_SFail ≠ o.mStencil_SFail then decide (s.mStencil_SFail < o.mStencil_SFail) else
  if s.mStencil_DpFail ≠ o.mStencil_DpFail then decide (s.mStencil_DpFail < o.mStencil_DpFail) else
  if s.mStencil_DpPass ≠ o.mStencil_DpPass then decide (s.mStencil_DpPass < o.mStencil_DpPass) else
  if s.mStencil_Function ≠ o.mStencil_Function then decide (s.mStencil_Function < o.mStencil_Function) else
  if s.mStencil_RefValue ≠ o.mStencil_RefValue then decide (s.mStencil_RefValue < o.mStencil_RefValue) else
  if s.mStencil_FunctionMask ≠ o.mStencil_FunctionMask then decide (s.mStencil_FunctionMask < o.mStencil_FunctionMask) else
  false

/-- `std::map` key equivalence induced by `State::operator<`: two keys are
equivalent when neither is less than the other. -/
def stateEquiv (a b : State) : Bool := !stateLt a b && !stateLt b a

/-- One step of the lexicographic chain, rational fields: neither direction
reports less-than exactly when the field is equal and neither direction of
the remaining chain reports less-than. -/
theorem ltStepQ (x y : ℚ) (p q : Bool) :
    ((if x ≠ y then decide (x < y) else p) = false ∧
     (if y ≠ x then decide (y < x) else q) = false) ↔ (x = y ∧ p = false ∧ q = false) := by
  by_cases h : x = y
  · subst h; simp
  · rw [if_pos h, if_pos (Ne.symm h)]
    constructor
    · rintro ⟨h1, h2⟩
      exact absurd (le_antisymm (not_lt.mp (of_decide_eq_false h2))
        (not_lt.mp (of_decide_eq_false h1))) h
    · rintro ⟨h3, -⟩
      exact absurd h3 h

/-- One step of the lexicographic chain, signed-integer fields. -/
theorem ltStepInt (x y : Int) (p q : Bool) :
    ((if x ≠ y then decide (x < y) else p) = false ∧
     (if y ≠ x then decide (y < x) else q) = false) ↔ (x = y ∧ p = false ∧ q = false) := by
  by_cases h : x = y
  · subst h; simp
  · rw [if_pos h, if_pos (Ne.symm h)]
    constructor
    · rintro ⟨h1, h2⟩
      exact absurd (le_antisymm (not_lt.mp (of_decide_eq_false h2))
        (not_lt.mp (of_decide_eq_false h1))) h
    · rintro ⟨h3, -⟩
      exact absurd h3 h

/-- One step of the lexicographic chain, unsigned / enumeration / pointer
fields. -/
theorem ltStepNat (x y : Nat) (p q : Bool) :
    ((if x ≠ y then decide (x < y) else p) = false ∧
     (if y ≠ x then decide (y < x) else q) = false) ↔ (x = y ∧ p = false ∧ q = false) := by
  by_cases h : x = y
  · subst h; simp
  · rw [if_pos h, if_pos (Ne.symm h)]
    constructor
    · rintro ⟨h1, h2⟩
      exact absurd (le_antisymm (not_lt.mp (of_decide_eq_false h2))
        (not_lt.mp (of_decide_eq_false h1))) h
    · rintro ⟨h3, -⟩
      exact absurd h3 h

/-- One step of the lexicographic chain, boolean fields. -/
theorem ltStepBool (x y : Bool) (p q : Bool) :
    ((if x ≠ y then decide (x < y) else p) = false ∧
     (if y ≠ x then decide (y < x) else q) = false) ↔ (x = y ∧ p = false ∧ q = false) := by
  cases x <;> cases y <;> simp

/-- `memcmpBytes` reports `eq` exactly on equal byte sequences. -/
theorem memcmpBytes_eq_iff : ∀ (xs ys : List Nat), memcmpBytes xs ys = Ordering.eq ↔ xs = ys
  | [], [] => by simp [memcmpBytes]
  | [], _ :: _ => by simp [memcmpBytes]
  | _ :: _, [] => by simp [memcmpBytes]
  | x :: xs, y :: ys => by
    simp only [memcmpBytes, List.cons.injEq]
    by_cases h1 : x < y
    · simp only [if_pos h1]
      constructor
      · intro hc; exact absurd hc (by simp)
      · rintro ⟨rfl, -⟩; exact absurd h1 (lt_irrefl x)
    · by_cases h2 : y < x
      · simp only [if_neg h1, if_pos h2]
        constructor
        · intro hc; exact absurd hc (by simp)
        · rintro ⟨rfl, -⟩; exact absurd h2 (lt_irrefl x)
      · have hxy : x = y := le_antisymm (not_lt.mp h2) (not_lt.mp h1)
        simp only [if_neg h1, if_neg h2]
        rw [memcmpBytes_eq_iff xs ys]
        simp [hxy]

/-- Reversing the arguments of `memcmpBytes` swaps the verdict. -/
theorem memcmpBytes_swap : ∀ (xs ys : List Nat), memcmpBytes ys xs = (memcmpBytes xs ys).swap
  | [], [] => rfl
  | [], _ :: _ => rfl
  | _ :: _, [] => rfl
  | x :: xs, y :: ys => by
    simp only [memcmpBytes]
    by_cases h1 : x < y
    · have h2 : ¬ y < x := fun h => absurd (h1.trans h) (lt_irrefl x)
      simp [h1, h2, Ordering.swap]
    · by_cases h2 : y < x
      · simp [h1, h2, Ordering.swap]
      · simp [h1, h2, memcmpBytes_swap xs ys]

/-- The `memcmp` step of the lexicographic chain (polygon-stipple bytes). -/
theorem memStep (xs ys : List Nat) (p q : Bool) :
    ((if memcmpBytes xs ys ≠ Ordering.eq then decide (memcmpBytes xs ys = Ordering.lt) else p) = false ∧
     (if memcmpBytes ys xs ≠ Ordering.eq then decide (memcmpBytes ys xs = Ordering.lt) else q) = false) ↔
    (xs = ys ∧ p = false ∧ q = false) := by
  rw [memcmpBytes_swap xs ys]
  rcases h : memcmpBytes xs ys with - | - | -
  · have hne : ¬ xs = ys := fun e => by
      rw [(memcmpBytes_eq_iff xs ys).mpr e] at h; exact absurd h (by simp)
    simp [hne, Ordering.swap]
  · have he : xs = ys := (memcmpBytes_eq_iff xs ys).mp h
    simp [he, Ordering.swap]
  · have hne : ¬ xs = ys := fun e => by
      rw [(memcmpBytes_eq_iff xs ys).mpr e] at h; exact absurd h (by simp)
    simp [hne, Ordering.swap]

/-- Mutual incomparability under `State::operator<` coincides with
field-by-field equality of all compared fields. -/
theorem stateLt_ff_iff_fields (a b : State) :
    (stateLt a b = false ∧ stateLt b a = false) ↔
      (a.mColorR = b.mColorR ∧ a.mColorG = b.mColorG ∧ a.mColorB = b.mColorB ∧
       a.mColorA = b.mColorA ∧ a.mPointSize = b.mPointSize ∧ a.mImage = b.mImage ∧
       a.mTextureMode = b.mTextureMode ∧ a.mPolygonSmoothing = b.mPolygonSmoothing ∧
       a.mPointSmoothing = b.mPointSmoothing ∧ a.mLineSmoothing = b.mLineSmoothing ∧
       a.mLineWidth = b.mLineWidth ∧ a.mLineStipple = b.mLineStipple ∧
       a.mLogicOp = b.mLogicOp ∧ a.mPolyStipple = b.mPolyStipple ∧
       a.mBlendEquationRGB = b.mBlendEquationRGB ∧
       a.mBlendEquationAlpha = b.mBlendEquationAlpha ∧
       a.mBlendFactorSrcRGB = b.mBlendFactorSrcRGB ∧
       a.mBlendFactorDstRGB = b.mBlendFactorDstRGB ∧
       a.mBlendFactorSrcAlpha = b.mBlendFactorSrcAlpha ∧
       a.mBlendFactorDstAlpha = b.mBlendFactorDstAlpha ∧
       a.mAlphaFuncRefValue = b.mAlphaFuncRefValue ∧ a.mAlphaFunc = b.mAlphaFunc ∧
       a.mFont = b.mFont ∧ a.mColorMaskR = b.mColorMaskR ∧
       a.mColorMaskG = b.mColorMaskG ∧ a.mColorMaskB = b.mColorMaskB ∧
       a.mColorMaskA = b.mColorMaskA ∧ a.mStencilMask = b.mStencilMask ∧
       a.mStencilTestEnabled = b.mStencilTestEnabled ∧
       a.mStencil_SFail = b.mStencil_SFail ∧ a.mStencil_DpFail = b.mStencil_DpFail ∧
       a.mStencil_DpPass = b.mStencil_DpPass ∧
       a.mStencil_Function = b.mStencil_Function ∧
       a.mStencil_RefValue = b.mStencil_RefValue ∧
       a.mStencil_FunctionMask = b.mStencil_FunctionMask) := by
  unfold stateLt
  rw [ltStepQ, ltStepQ, ltStepQ, ltStepQ, ltStepInt, ltStepNat, ltStepNat,
      ltStepBool, ltStepBool, ltStepBool, ltStepQ, ltStepNat, ltStepNat, memStep,
      ltStepNat, ltStepNat, ltStepNat, ltStepNat, ltStepNat, ltStepNat,
      ltStepQ, ltStepNat, ltStepNat,
      ltStepInt, ltStepInt, ltStepInt, ltStepInt,
      ltStepNat, ltStepBool,
      ltStepNat, ltStepNat, ltStepNat, ltStepNat, ltStepInt, ltStepNat]
  simp

/-- Mutual incomparability under `State::operator<` coincides with structural
equality of the two states. -/
theorem stateLt_ff_iff_eq (a b : State) :
    (stateLt a b = false ∧ stateLt b a = false) ↔ a = b := by
  rw [stateLt_ff_iff_fields]
  constructor
  · rintro ⟨h1, h2, h3, h4, h5, h6, h7, h8, h9, h10, h11, h12, h13, h14, h15, h16,
      h17, h18, h19, h20, h21, h22, h23, h24, h25, h26, h27, h28, h29, h30, h31,
      h32, h33, h34, h35⟩
    exact State.ext h1 h2 h3 h4 h5 h6 h7 h13 h11 h9 h10 h8 h12 h14 h15 h16 h17
      h18 h19 h20 h21 h22 h23 h24 h25 h26 h27 h29 h28 h30 h31 h32 h33 h34 h35
  · rintro rfl
    simp

/-- The `std::map` key equivalence induced by `State::operator<` is exactly
structural equality of states. -/
theorem stateEquiv_true_iff (a b : State) : stateEquiv a b = true ↔ a = b := by
  rw [show stateEquiv a b = (!stateLt a b && !stateLt b a) from rfl,
      Bool.and_eq_true, Bool.not_eq_true', Bool.not_eq_true']
  exact stateLt_ff_iff_eq a b

/-- C2: under the lexicographic comparison `State::operator<`, two states are
mutually incomparable (neither `a < b` nor `b < a`) exactly when every
compared field — color RGBA, point size, image, texture mode, the three
smoothing flags, line width, line stipple, logic op, the polygon-stipple
bytes, the blend equations, the four blend factors, alpha function and
reference, font, color mask RGBA, and all stencil fields — is equal in the
two states. -/
theorem C2_state_order_equality (a b : State) :
    (¬ stateLt a b = true ∧ ¬ stateLt b a = true) ↔
      (a.mColorR = b.mColorR ∧ a.mColorG = b.mColorG ∧ a.mColorB = b.mColorB ∧
       a.mColorA = b.mColorA ∧ a.mPointSize = b.mPointSize ∧ a.mImage = b.mImage ∧
       a.mTextureMode = b.mTextureMode ∧ a.mPolygonSmoothing = b.mPolygonSmoothing ∧
       a.mPointSmoothing = b.mPointSmoothing ∧ a.mLineSmoothing = b.mLineSmoothing ∧
       a.mLineWidth = b.mLineWidth ∧ a.mLineStipple = b.mLineStipple ∧
       a.mLogicOp = b.mLogicOp ∧ a.mPolyStipple = b.mPolyStipple ∧
       a.mBlendEquationRGB = b.mBlendEquationRGB ∧
       a.mBlendEquationAlpha = b.mBlendEquationAlpha ∧
       a.mBlendFactorSrcRGB = b.mBlendFactorSrcRGB ∧
       a.mBlendFactorDstRGB = b.mBlendFactorDstRGB ∧
       a.mBlendFactorSrcAlpha = b.mBlendFactorSrcAlpha ∧
       a.mBlendFactorDstAlpha = b.mBlendFactorDstAlpha ∧
       a.mAlphaFuncRefValue = b.mAlphaFuncRefValue ∧ a.mAlphaFunc = b.mAlphaFunc ∧
       a.mFont = b.mFont ∧ a.mColorMaskR = b.mColorMaskR ∧
       a.mColorMaskG = b.mColorMaskG ∧ a.mColorMaskB = b.mColorMaskB ∧
       a.mColorMaskA = b.mColorMaskA ∧ a.mStencilMask = b.mStencilMask ∧
       a.mStencilTestEnabled = b.mStencilTestEnabled ∧
       a.mStencil_SFail = b.mStencil_SFail ∧ a.mStencil_DpFail = b.mStencil_DpFail ∧
       a.mStencil_DpPass = b.mStencil_DpPass ∧
       a.mStencil_Function = b.mStencil_Function ∧
       a.mStencil_RefValue = b.mStencil_RefValue ∧
       a.mStencil_FunctionMask = b.mStencil_FunctionMask) := by
  simp only [Bool.not_eq_true]
  exact stateLt_ff_iff_fields a b

/-- C6: the code contradicts the documented baseline.  `State::State()`
assigns `mStencil_SFail` twice (source lines 170-171) and never assigns
`mStencil_DpPass`, so the depth-pass stencil operation keeps its
indeterminate pre-construction content (the `State.init` parameter).  Taking
`1` as that indeterminate value: the depth-pass operation differs from
`SO_KEEP`, while every other default claimed — opaque white color, point
size 5, line stipple `0xFFFF`, 128 polygon-stipple bytes `0xFF`,
`SRC_ALPHA`/`ONE_MINUS_SRC_ALPHA` factors with `FUNC_ADD` equations on both
channels, stencil test disabled, all-bits-set stencil function mask, and
`SO_KEEP` for sfail and dpfail — does hold. -/
theorem C6_stencil_dppass_uninitialized :
    (∀ u, (State.init u).mStencil_DpPass = u) ∧
    (State.init 1).mStencil_DpPass ≠ soKeep ∧
    (State.init 1).mColorR = 1 ∧ (State.init 1).mColorG = 1 ∧
    (State.init 1).mColorB = 1 ∧ (State.init 1).mColorA = 1 ∧
    (State.init 1).mPointSize = 5 ∧
    (State.init 1).mLineStipple = 0xFFFF ∧
    (State.init 1).mPolyStipple = List.replicate 128 0xFF ∧
    (State.init 1).mBlendEquationRGB = beFuncAdd ∧
    (State.init 1).mBlendEquationAlpha = beFuncAdd ∧
    (State.init 1).mBlendFactorSrcRGB = bfSrcAlpha ∧
    (State.init 1).mBlendFactorDstRGB = bfOneMinusSrcAlpha ∧
    (State.init 1).mBlendFactorSrcAlpha = bfSrcAlpha ∧
    (State.init 1).mBlendFactorDstAlpha = bfOneMinusSrcAlpha ∧
    (State.init 1).mStencilTestEnabled = false ∧
    (State.init 1).mStencil_FunctionMask = 2 ^ 32 - 1 ∧
    (State.init 1).mStencil_SFail = soKeep ∧
    (State.init 1).mStencil_DpFail = soKeep :=
  ⟨fun _ => rfl, by decide, rfl, rfl, rfl, rfl, rfl, rfl, rfl, rfl, rfl, rfl,
   rfl, rfl, rfl, rfl, by decide, rfl, rfl⟩

/-- A canonicalization cache (`std::map<Key, ref<Resource> >` together with
the injected resource factory of spec §4.2).  `entries` pairs each
canonicalized key with its resource; resource instances are identified by
the value of the build counter at their creation, so distinct factory
invocations yield distinct instances.  `builds` counts factory
invocations. -/
structure Cache (K : Type) where
  entries : List (K × Nat)
  builds : Nat
deriving DecidableEq

/-- A fresh, empty cache (start of a drawing session). -/
def Cache.empty (K : Type) : Cache K := ⟨[], 0⟩

/-- Modelled from the spec: §4.2's `resolve(key)` — the bodies of
`VectorGraphics::currentEffect(const State&)`, `resolveScissor` and
`resolveTexture` live in `VectorGraphics.cpp`, which is not among the
provided sources.  Looks the key up under the equivalence `eqv` induced by
the map's comparator; on a hit returns the stored resource without invoking
the factory; on a miss invokes the factory (recorded in `builds`), stores
the mapping, and returns the new resource. -/
def Cache.resolveWith {K : Type} (eqv : K → K → Bool) (c : Cache K) (k : K) :
    Nat × Cache K :=
  match c.entries.find? (fun e => eqv e.1 k) with
  | some e => (e.2, c)
  | none => (c.builds, ⟨c.entries ++ [(k, c.builds)], c.builds + 1⟩)

/-- `Cache.resolveWith` specialized to lookup by key equality. -/
def Cache.resolve {K : Type} [DecidableEq K] (c : Cache K) (k : K) :
    Nat × Cache K :=
  c.resolveWith (fun a b => decide (a = b)) k

/-- The resource currently stored for a key, if any. -/
def Cache.lookup {K : Type} [DecidableEq K] (c : Cache K) (k : K) : Option Nat :=
  (c.entries.find? (fun e => decide (e.1 = k))).map Prod.snd

/-- The keys currently stored in the cache. -/
def Cache.keys {K : Type} (c : Cache K) : List K := c.entries.map Prod.fst

/-- The key equivalence of `stateEquiv` is plain equality, so the map lookup
performed by the style-resource cache is lookup by key equality. -/
theorem stateEquiv_eq_decide (a b : State) : stateEquiv a b = decide (a = b) := by
  by_cases h : a = b
  · rw [decide_eq_true h, (stateEquiv_true_iff a b).mpr h]
  · rw [decide_eq_false h]
    exact Bool.eq_false_iff.mpr (fun ht => h ((stateEquiv_true_iff a b).mp ht))

/-- Style-resource resolution: `currentEffect(const State&)` resolves the
given state snapshot through `mVGToEffectMap`, the `std::map` keyed by
`State` under `State::operator<`. -/
def resolveEffect (c : Cache State) (k : State) : Nat × Cache State :=
  c.resolveWith stateEquiv k

/-- Resolving a sequence of state snapshots in order (one draw call each). -/
def resolveEffects (c : Cache State) (ks : List State) : Cache State :=
  ks.foldl (fun c k => (resolveEffect c k).2) c

theorem resolveEffect_eq_resolve (c : Cache State) (k : State) :
    resolveEffect c k = c.resolve k := by
  unfold resolveEffect Cache.resolve Cache.resolveWith
  rw [show (fun (e : State × Nat) => stateEquiv e.1 k)
        = (fun (e : State × Nat) => decide (e.1 = k))
      from funext fun e => stateEquiv_eq_decide e.1 k]

theorem find?_append_none {α : Type} {p : α → Bool} {l1 : List α} (l2 : List α)
    (h : l1.find? p = none) : (l1 ++ l2).find? p = l2.find? p := by
  induction l1 with
  | nil => rfl
  | cons a t ih =>
    cases hpa : p a with
    | true => simp [List.find?_cons, hpa] at h
    | false =>
      simp only [List.find?_cons, hpa] at h
      simpa [List.find?_cons, hpa] using ih h

theorem find?_append_some {α : Type} {p : α → Bool} {l1 : List α} {a : α}
    (l2 : List α) (h : l1.find? p = some a) : (l1 ++ l2).find? p = some a := by
  induction l1 with
  | nil => simp at h
  | cons x t ih =>
    cases hpx : p x with
    | true => simp_all [List.find?_cons, hpx]
    | false =>
      simp only [List.find?_cons, hpx] at h
      simpa [List.find?_cons, hpx] using ih h

/-- After resolving a key, the cache stores exactly the returned resource for
that key. -/
theorem Cache.lookup_resolve_self {K : Type} [DecidableEq K] (c : Cache K)
    (k : K) : ((c.resolve k).2).lookup k = some ((c.resolve k).1) := by
  unfold Cache.resolve Cache.resolveWith Cache.lookup
  cases hf : c.entries.find? (fun e => decide (e.1 = k)) with
  | some e => simp [hf]
  | none =>
    simp only [hf]
    rw [find?_append_none _ hf]
    simp [List.find?_cons]

/-- A hit (the key is already stored) returns the stored resource and leaves
the cache — in particular the factory-invocation count — unchanged. -/
theorem Cache.resolve_hit {K : Type} [DecidableEq K] {c : Cache K} {k : K}
    {r : Nat} (h : c.lookup k = some r) : c.resolve k = (r, c) := by
  unfold Cache.lookup at h
  unfold Cache.resolve Cache.resolveWith
  cases hf : c.entries.find? (fun e => decide (e.1 = k)) with
  | some e =>
    rw [hf] at h
    simp only [Option.map, Option.some.injEq] at h
    simp [hf, h]
  | none => rw [hf] at h; simp at h

/-- Resolving any key preserves every stored (key, resource) association. -/
theorem Cache.lookup_resolve_mono {K : Type} [DecidableEq K] {c : Cache K}
    {j : K} {r : Nat} (k : K) (h : c.lookup j = some r) :
    ((c.resolve k).2).lookup j = some r := by
  unfold Cache.lookup at h ⊢
  unfold Cache.resolve Cache.resolveWith
  cases hf : c.entries.find? (fun e => decide (e.1 = k)) with
  | some e => simpa [hf] using h
  | none =>
    simp only [hf]
    cases hj : c.entries.find? (fun e => decide (e.1 = j)) with
    | some a => rw [find?_append_some _ hj]; rw [hj] at h; simpa using h
    | none => rw [hj] at h; simp at h

/-- A miss (the key is not stored) invokes the factory: the build counter
advances and the new association is appended. -/
theorem Cache.resolve_miss {K : Type} [DecidableEq K] {c : Cache K} {k : K}
    (h : c.lookup k = none) :
    c.resolve k = (c.builds, ⟨c.entries ++ [(k, c.builds)], c.builds + 1⟩) := by
  unfold Cache.lookup at h
  unfold Cache.resolve Cache.resolveWith
  cases hf : c.entries.find? (fun e => decide (e.1 = k)) with
  | some e => rw [hf] at h; simp at h
  | none => simp [hf]

/-- Nothing is stored for a key exactly when the key is absent. -/
theorem Cache.lookup_eq_none_iff {K : Type} [DecidableEq K] (c : Cache K)
    (k : K) : c.lookup k = none ↔ k ∉ c.keys := by
  unfold Cache.lookup Cache.keys
  cases hf : c.entries.find? (fun e => decide (e.1 = k)) with
  | some e =>
    have he : e ∈ c.entries := List.mem_of_find?_eq_some hf
    have hk : e.1 = k := by
      have h2 := List.find?_some hf
      simpa using h2
    constructor
    · intro hx; exact absurd hx (by simp)
    · intro hx; exact absurd (List.mem_map.mpr ⟨e, he, hk⟩) hx
  | none =>
    have hall := List.find?_eq_none.mp hf
    constructor
    · intro _ hm
      obtain ⟨e, he, hek⟩ := List.mem_map.mp hm
      exact absurd (decide_eq_true hek) (hall e he)
    · intro _; rfl

/-- Resolving a key makes the stored key set exactly the old key set plus
that key. -/
theorem Cache.keys_toFinset_resolve {K : Type} [DecidableEq K] (c : Cache K)
    (k : K) :
    ((c.resolve k).2).keys.toFinset = insert k c.keys.toFinset := by
  cases hl : c.lookup k with
  | some r =>
    rw [Cache.resolve_hit hl]
    have hk : k ∈ c.keys := by
      by_contra hn
      rw [(Cache.lookup_eq_none_iff c k).mpr hn] at hl
      exact Option.noConfusion hl
    rw [Finset.insert_eq_self.mpr (List.mem_toFinset.mpr hk)]
  | none =>
    rw [Cache.resolve_miss hl]
    show ((c.entries ++ [(k, c.builds)]).map Prod.fst).toFinset = _
    rw [List.map_append, List.toFinset_append]
    show c.keys.toFinset ∪ {k} = _
    rw [Finset.union_comm, Finset.insert_eq]

/-- Each resolve advances the build counter by exactly the number of new
keys it stores (one on a miss, zero on a hit). -/
theorem Cache.builds_resolve {K : Type} [DecidableEq K] (c : Cache K) (k : K) :
    ((c.resolve k).2).builds + c.keys.toFinset.card
      = c.builds + ((c.resolve k).2).keys.toFinset.card := by
  rw [Cache.keys_toFinset_resolve]
  cases hl : c.lookup k with
  | some r =>
    rw [Cache.resolve_hit hl]
    have hk : k ∈ c.keys := by
      by_contra hn
      rw [(Cache.lookup_eq_none_iff c k).mpr hn] at hl
      exact Option.noConfusion hl
    rw [Finset.insert_eq_self.mpr (List.mem_toFinset.mpr hk)]
  | none =>
    have hk : k ∉ c.keys := (Cache.lookup_eq_none_iff c k).mp hl
    simp only [Cache.resolve_miss hl]
    rw [Finset.card_insert_of_not_mem (fun hm => hk (List.mem_toFinset.mp hm))]
    omega

/-- Resolving a sequence of states preserves every stored association. -/
theorem lookup_resolveEffects_mono (c : Cache State) (ks : List State)
    {j : State} {r : Nat} (h : c.lookup j = some r) :
    (resolveEffects c ks).lookup j = some r := by
  induction ks generalizing c with
  | nil => exact h
  | cons k t ih =>
    show (resolveEffects ((resolveEffect c k).2) t).lookup j = some r
    refine ih _ ?_
    rw [resolveEffect_eq_resolve]
    exact Cache.lookup_resolve_mono k h

/-- The key set accumulated by a sequence of resolves is the initial key set
joined with the resolved keys. -/
theorem keys_toFinset_resolveEffects (c : Cache State) (ks : List State) :
    (resolveEffects c ks).keys.toFinset = c.keys.toFinset ∪ ks.toFinset := by
  induction ks generalizing c with
  | nil => simp [resolveEffects]
  | cons k t ih =>
    show (resolveEffects ((resolveEffect c k).2) t).keys.toFinset = _
    rw [ih, resolveEffect_eq_resolve, Cache.keys_toFinset_resolve,
        List.toFinset_cons, Finset.insert_union, Finset.union_insert]

/-- Across a sequence of resolves, the build counter advances by exactly the
number of new distinct keys. -/
theorem builds_resolveEffects (c : Cache State) (ks : List State) :
    (resolveEffects c ks).builds + c.keys.toFinset.card
      = c.builds + (resolveEffects c ks).keys.toFinset.card := by
  induction ks generalizing c with
  | nil => rfl
  | cons k t ih =>
    show (resolveEffects ((resolveEffect c k).2) t).builds + _ = _
    have h1 := ih ((resolveEffect c k).2)
    have h2 : ((resolveEffect c k).2).builds + c.keys.toFinset.card
        = c.builds + ((resolveEffect c k).2).keys.toFinset.card := by
      rw [resolveEffect_eq_resolve]
      exact Cache.builds_resolve c k
    have h3 : (resolveEffects ((resolveEffect c k).2) t).keys.toFinset
        = (resolveEffects c (k :: t)).keys.toFinset := rfl
    have h4 := congrArg Finset.card h3
    omega

/-- C1: if two DrawState values `a` and `b` are equal under the §4.1 order
(mutually incomparable under `State::operator<`), then resolving `a` and
later — after arbitrarily many intervening resolves with other keys —
resolving `b` through the style-resource cache returns the identical
resource instance, and the later resolve is a hit that leaves the cache
(and with it the factory-invocation count `builds`) unchanged: the factory
is not invoked. -/
theorem C1_cache_determinism (c : Cache State) (a b : State) (ks : List State)
    (hab : stateEquiv a b = true) :
    (resolveEffect (resolveEffects ((resolveEffect c a).2) ks) b).1
        = (resolveEffect c a).1 ∧
    (resolveEffect (resolveEffects ((resolveEffect c a).2) ks) b).2
        = resolveEffects ((resolveEffect c a).2) ks := by
  obtain rfl : a = b := (stateEquiv_true_iff a b).mp hab
  have h1 : ((resolveEffect c a).2).lookup a = some ((resolveEffect c a).1) := by
    rw [resolveEffect_eq_resolve]
    exact Cache.lookup_resolve_self c a
  have h2 := lookup_resolveEffects_mono ((resolveEffect c a).2) ks h1
  have h3 := Cache.resolve_hit h2
  rw [resolveEffect_eq_resolve, h3]
  exact ⟨rfl, rfl⟩

/-- Concrete instantiation of `C1_cache_determinism`: the default state,
resolved from the empty cache, then again after an intervening resolve of a
different state, yields the same resource without a new factory call. -/
theorem C1_cache_determinism_witness :
    stateEquiv State.default State.default = true ∧
    ((resolveEffect (resolveEffects ((resolveEffect (Cache.empty State) State.default).2)
          [{ State.default with mPointSize := 6 }]) State.default).1
        = (resolveEffect (Cache.empty State) State.default).1 ∧
     (resolveEffect (resolveEffects ((resolveEffect (Cache.empty State) State.default).2)
          [{ State.default with mPointSize := 6 }]) State.default).2
        = resolveEffects ((resolveEffect (Cache.empty State) State.default).2)
            [{ State.default with mPointSize := 6 }]) :=
  ⟨by decide,
   C1_cache_determinism (Cache.empty State) State.default State.default
     [{ State.default with mPointSize := 6 }] (by decide)⟩

/-- C3: starting a session with an empty style-resource cache, a sequence of
draw calls whose per-call DrawState snapshots are `draws` (N = `draws.length`
draw calls) invokes the style-resource factory exactly once per distinct
state value (K = `draws.dedup.length`), not once per call. -/
theorem C3_cache_minimality (draws : List State) :
    (resolveEffects (Cache.empty State) draws).builds = draws.dedup.length := by
  have h1 := builds_resolveEffects (Cache.empty State) draws
  have h2 := keys_toFinset_resolveEffects (Cache.empty State) draws
  have he : (Cache.empty State).keys.toFinset = (∅ : Finset State) := rfl
  rw [h2, he, Finset.empty_union] at h1
  simp only [Finset.card_empty] at h1
  have hb : (Cache.empty State).builds = 0 := rfl
  have hc := List.card_toFinset draws
  omega

/-- The `dmat4` 4×4 transform matrix, entries modelled as rationals.  The
operations in scope copy, store and compare whole matrices and never compute
with entries, except that `resetMatrix` / session resets install the
identity. -/
structure DMat4 where
  e00 : ℚ
  e01 : ℚ
  e02 : ℚ
  e03 : ℚ
  e10 : ℚ
  e11 : ℚ
  e12 : ℚ
  e13 : ℚ
  e20 : ℚ
  e21 : ℚ
  e22 : ℚ
  e23 : ℚ
  e30 : ℚ
  e31 : ℚ
  e32 : ℚ
  e33 : ℚ
deriving DecidableEq

/-- The identity matrix (`dmat4` default / `setIdentity`). -/
def DMat4.identity : DMat4 := ⟨1,0,0,0, 0,1,0,0, 0,0,1,0, 0,0,0,1⟩

/-- `RectI`: an integer rectangle (x, y, width, height). -/
structure RectI where
  x : Int
  y : Int
  w : Int
  h : Int
deriving DecidableEq

/-- Modelled from the spec: the geometric intersection of two integer
rectangles (`RectI::intersected` lives in vlCore, which is not among the
provided sources; §4.2 calls it the "new rectangle intersected with the
active one"). -/
def RectI.intersected (a b : RectI) : RectI where
  x := max a.x b.x
  y := max a.y b.y
  w := min (a.x + a.w) (b.x + b.w) - max a.x b.x
  h := min (a.y + a.h) (b.y + b.h) - max a.y b.y

/-- A `ref<Scissor>` clip-region resource: the rectangle it clips to plus
the cache-assigned instance id distinguishing separately built
resources. -/
structure ScissorRes where
  rect : RectI
  rid : Nat
deriving DecidableEq

/-- An `Actor` of the output collection: the bound transform (pointer
handle, 0 = `NULL`), the renderable payload it draws and the style resource
it was emitted with. -/
structure Actor where
  mTransform : Nat
  mRenderable : Nat
  mEffect : Nat
deriving DecidableEq

/-- The `vl::VectorGraphics` drawing context: live state, current transform
matrix, current scissor, the three parallel stacks, the canonicalization
maps and the ordered output collection.  (`mImageToTextureMap` and the
geometry helpers are omitted: no operation modelled here resolves
textures.) -/
structure VectorGraphics where
  mState : State
  mMatrix : DMat4
  mScissor : Option ScissorRes
  mStateStack : List State
  mMatrixStack : List DMat4
  mScissorStack : List (Option ScissorRes)
  mVGToEffectMap : Cache State
  mRectToScissorMap : Cache RectI
  mActors : List Actor
deriving DecidableEq

/-- Modelled from the spec: a freshly constructed `VectorGraphics()` context
(constructor body in the .cpp): baseline state, identity matrix, no
scissor, empty stacks, empty caches, empty output collection. -/
def VectorGraphics.empty : VectorGraphics where
  mState := State.default
  mMatrix := DMat4.identity
  mScissor := none
  mStateStack := []
  mMatrixStack := []
  mScissorStack := []
  mVGToEffectMap := Cache.empty State
  mRectToScissorMap := Cache.empty RectI
  mActors := []

namespace VectorGraphics

/-- `setColor(color)`: sets the current color. -/
def setColor (vg : VectorGraphics) (r g b a : ℚ) : VectorGraphics :=
  { vg with mState := { vg.mState with
      mColorR := r, mColorG := g, mColorB := b, mColorA := a } }

/-- `setPointSize(size)`. -/
def setPointSize (vg : VectorGraphics) (n : Int) : VectorGraphics :=
  { vg with mState := { vg.mState with mPointSize := n } }

/-- `setImage(image)`: image pointers are opaque handles, 0 = `NULL`. -/
def setImage (vg : VectorGraphics) (img : Nat) : VectorGraphics :=
  { vg with mState := { vg.mState with mImage := img } }

/-- `setPoint(image)`: sugar for `setImage(image); setPointSize(image->width())`;
the image's pixel width is supplied alongside the opaque handle. -/
def setPoint (vg : VectorGraphics) (img : Nat) (width : Int) : VectorGraphics :=
  (vg.setImage img).setPointSize width

/-- `setTextureMode(mode)`. -/
def setTextureMode (vg : VectorGraphics) (m : Nat) : VectorGraphics :=
  { vg with mState := { vg.mState with mTextureMode := m } }

/-- `setLogicOp(op)`. -/
def setLogicOp (vg : VectorGraphics) (op : Nat) : VectorGraphics :=
  { vg with mState := { vg.mState with mLogicOp := op } }

/-- `setLineWidth(width)`. -/
def setLineWidth (vg : VectorGraphics) (w : ℚ) : VectorGraphics :=
  { vg with mState := { vg.mState with mLineWidth := w } }

/-- `setPointSmoothing(smooth)`. -/
def setPointSmoothing (vg : VectorGraphics) (b : Bool) : VectorGraphics :=
  { vg with mState := { vg.mState with mPointSmoothing := b } }

/-- `setLineSmoothing(smooth)`. -/
def setLineSmoothing (vg : VectorGraphics) (b : Bool) : VectorGraphics :=
  { vg with mState := { vg.mState with mLineSmoothing := b } }

/-- `setPolygonSmoothing(smooth)`. -/
def setPolygonSmoothing (vg : VectorGraphics) (b : Bool) : VectorGraphics :=
  { vg with mState := { vg.mState with mPolygonSmoothing := b } }

/-- `setLineStipple(unsigned short stipple)`. -/
def setLineStipple (vg : VectorGraphics) (s : Nat) : VectorGraphics :=
  { vg with mState := { vg.mState with mLineStipple := s } }

/-- `setPolygonStipple(unsigned char* stipple)`: `memcpy` of the 128
pattern bytes into the live state. -/
def setPolygonStipple (vg : VectorGraphics) (bytes : List Nat) : VectorGraphics :=
  { vg with mState := { vg.mState with mPolyStipple := bytes } }

/-- `setAlphaFunc(func, ref_value)`. -/
def setAlphaFunc (vg : VectorGraphics) (f : Nat) (ref : ℚ) : VectorGraphics :=
  { vg with mState := { vg.mState with
      mAlphaFuncRefValue := ref, mAlphaFunc := f } }

/-- `setBlendFunc(src_rgb, dst_rgb, src_alpha, dst_alpha)`; the body is in
the .cpp — modelled from spec §4.3: mutates only the four blend-factor
fields named. -/
def setBlendFunc (vg : VectorGraphics) (srgb drgb salpha dalpha : Nat) :
    VectorGraphics :=
  { vg with mState := { vg.mState with
      mBlendFactorSrcRGB := srgb, mBlendFactorDstRGB := drgb,
      mBlendFactorSrcAlpha := salpha, mBlendFactorDstAlpha := dalpha } }

/-- `setBlendEquation(rgb_eq, alpha_eq)`; the body is in the .cpp —
modelled from spec §4.3: mutates only the two blend-equation fields. -/
def setBlendEquation (vg : VectorGraphics) (rgbEq alphaEq : Nat) :
    VectorGraphics :=
  { vg with mState := { vg.mState with
      mBlendEquationRGB := rgbEq, mBlendEquationAlpha := alphaEq } }

/-- `setColorMask(r, g, b, a)`: stores `ivec4(r?1:0, g?1:0, b?1:0, a?1:0)`. -/
def setColorMask (vg : VectorGraphics) (r g b a : Bool) : VectorGraphics :=
  { vg with mState := { vg.mState with
      mColorMaskR := if r then 1 else 0, mColorMaskG := if g then 1 else 0,
      mColorMaskB := if b then 1 else 0, mColorMaskA := if a then 1 else 0 } }

/-- `setStencilTestEnabled(enabled)`. -/
def setStencilTestEnabled (vg : VectorGraphics) (b : Bool) : VectorGraphics :=
  { vg with mState := { vg.mState with mStencilTestEnabled := b } }

/-- `setStencilMask(mask)`. -/
def setStencilMask (vg : VectorGraphics) (m : Nat) : VectorGraphics :=
  { vg with mState := { vg.mState with mStencilMask := m } }

/-- `setStencilOp(sfail, dpfail, dppass)`; the body is in the .cpp —
modelled from spec §4.3: mutates only the three stencil-operation fields. -/
def setStencilOp (vg : VectorGraphics) (sfail dpfail dppass : Nat) :
    VectorGraphics :=
  { vg with mState := { vg.mState with
      mStencil_SFail := sfail, mStencil_DpFail := dpfail,
      mStencil_DpPass := dppass } }

/-- `setStencilFunc(func, refval, mask)`; the body is in the .cpp —
modelled from spec §4.3: mutates only the stencil function, reference and
function-mask fields. -/
def setStencilFunc (vg : VectorGraphics) (f : Nat) (refv : Int) (mask : Nat) :
    VectorGraphics :=
  { vg with mState := { vg.mState with
      mStencil_Function := f, mStencil_RefValue := refv,
      mStencil_FunctionMask := mask } }

/-- `setFont(name, size, smooth)`: stores the handle produced by the
idempotent font-acquisition service `defFontManager()->acquireFont`. -/
def setFont (vg : VectorGraphics) (f : Nat) : VectorGraphics :=
  { vg with mState := { vg.mState with mFont := f } }

/-- `setDefaultFont()`. -/
def setDefaultFont (vg : VectorGraphics) : VectorGraphics :=
  vg.setFont defaultFontHandle

/-- `setMatrix(matrix)`. -/
def setMatrix (vg : VectorGraphics) (m : DMat4) : VectorGraphics :=
  { vg with mMatrix := m }

/-- `resetMatrix()`: `mMatrix.setIdentity()`. -/
def resetMatrix (vg : VectorGraphics) : VectorGraphics :=
  { vg with mMatrix := DMat4.identity }

/-- Modelled from the spec: `resolveScissor(x, y, width, height)` (body in
the .cpp) resolves the integer rectangle through the clip-region cache
`mRectToScissorMap`, §4.2's third cache instance, keyed by the rectangle. -/
def resolveScissor (vg : VectorGraphics) (r : RectI) :
    ScissorRes × VectorGraphics :=
  let p := vg.mRectToScissorMap.resolve r
  (⟨r, p.1⟩, { vg with mRectToScissorMap := p.2 })

/-- `setScissor(x, y, width, height)`: installs the cache-resolved scissor
for the given rectangle as current (`mScissor = resolveScissor(x,y,width,height)`). -/
def setScissor (vg : VectorGraphics) (r : RectI) : VectorGraphics :=
  let p := vg.resolveScissor r
  { p.2 with mScissor := some p.1 }

/-- `removeScissor()`: `mScissor = NULL`. -/
def removeScissor (vg : VectorGraphics) : VectorGraphics :=
  { vg with mScissor := none }

/-- `pushMatrix()`: `mMatrixStack.push_back(matrix())`. -/
def pushMatrix (vg : VectorGraphics) : VectorGraphics :=
  { vg with mMatrixStack := vg.mMatrixStack ++ [vg.mMatrix] }

/-- Modelled from the spec: `popMatrix()` (body in the .cpp) removes the top
entry of the matrix stack and installs it as current; popping an empty
stack is a precondition violation (§7 StackUnderflow), signalled here as
`none`. -/
def popMatrix (vg : VectorGraphics) : Option VectorGraphics :=
  match vg.mMatrixStack.getLast? with
  | none => none
  | some m => some { vg with mMatrix := m, mMatrixStack := vg.mMatrixStack.dropLast }

/-- Modelled from the spec: `pushState()` (body in the .cpp) appends copies
of the current matrix and the current DrawState as one atomic unit (§4.4). -/
def pushState (vg : VectorGraphics) : VectorGraphics :=
  { vg with mMatrixStack := vg.mMatrixStack ++ [vg.mMatrix],
            mStateStack := vg.mStateStack ++ [vg.mState] }

/-- Modelled from the spec: `popState()` (body in the .cpp) atomically
restores the matrix and the DrawState from the top stack entry; popping an
empty stack is a precondition violation (§7 StackUnderflow), signalled here
as `none`. -/
def popState (vg : VectorGraphics) : Option VectorGraphics :=
  match vg.mStateStack.getLast?, vg.mMatrixStack.getLast? with
  | some s, some m =>
    some { vg with mState := s, mMatrix := m,
                   mStateStack := vg.mStateStack.dropLast,
                   mMatrixStack := vg.mMatrixStack.dropLast }
  | _, _ => none

/-- Modelled from the spec: `pushScissor(x, y, w, h)` (body in the .cpp)
computes the new clip region as the intersection of the given rectangle
with the currently active one (or the rectangle alone if none is active),
resolves it through the clip-region cache, pushes the previous active
region onto the clip stack and installs the new one as current (§4.4). -/
def pushScissor (vg : VectorGraphics) (r : RectI) : VectorGraphics :=
  let newRect := match vg.mScissor with
    | some s => s.rect.intersected r
    | none => r
  let p := vg.resolveScissor newRect
  { p.2 with mScissorStack := p.2.mScissorStack ++ [vg.mScissor],
             mScissor := some p.1 }

/-- Modelled from the spec: `popScissor()` (body in the .cpp) removes the
top entry of the scissor stack and installs it as the active clip region
(possibly "no clipping"); popping an empty stack is a precondition
violation (§7 StackUnderflow), signalled here as `none`. -/
def popScissor (vg : VectorGraphics) : Option VectorGraphics :=
  match vg.mScissorStack.getLast? with
  | none => none
  | some s => some { vg with mScissor := s,
                             mScissorStack := vg.mScissorStack.dropLast }

/-- `setTransform(transform)`: binds the given transform to every actor
generated so far (`for(int i=0; i<actors()->size(); ++i)
actors()->at(i)->setTransform(transform);`). -/
def setTransform (vg : VectorGraphics) (t : Nat) : VectorGraphics :=
  { vg with mActors := vg.mActors.map (fun a => { a with mTransform := t }) }

/-- Modelled from the spec: the shared tail of every draw/fill entry point
(§4.5, bodies in the .cpp): resolve the current DrawState into a style
resource through `mVGToEffectMap` (`currentEffect()`), build the renderable
and append an actor bound to it, with no transform, to the output
collection. -/
def draw (vg : VectorGraphics) (payload : Nat) : VectorGraphics :=
  let p := resolveEffect vg.mVGToEffectMap vg.mState
  { vg with mVGToEffectMap := p.2,
            mActors := vg.mActors ++ [⟨0, payload, p.1⟩] }

/-- Modelled from the spec: `clear()` (body in the .cpp) resets the output
collection and all transient state — live DrawState, matrix, scissor and
the three stacks — unconditionally (§4.6); the resource caches are the
concern of `endDrawing(release_cache)`. -/
def clear (vg : VectorGraphics) : VectorGraphics :=
  { vg with mState := State.default, mMatrix := DMat4.identity,
            mScissor := none, mStateStack := [], mMatrixStack := [],
            mScissorStack := [], mActors := [] }

/-- `startDrawing()`: the header body is exactly `{ clear(); }`. -/
def startDrawing (vg : VectorGraphics) : VectorGraphics := vg.clear

/-- Modelled from the spec: `continueDrawing()` (body in the .cpp) resets
DrawState, matrix and stacks to defaults but preserves the accumulated
output and the resource caches (§4.6). -/
def continueDrawing (vg : VectorGraphics) : VectorGraphics :=
  { vg with mState := State.default, mMatrix := DMat4.identity,
            mScissor := none, mStateStack := [], mMatrixStack := [],
            mScissorStack := [] }

/-- Modelled from the spec: `endDrawing(release_cache)` (body in the .cpp)
ends the session; with `release_cache = true` it discards the resource
caches, forcing rebuilds next session, otherwise it keeps them warm
(§4.6). -/
def endDrawing (vg : VectorGraphics) (releaseCache : Bool) : VectorGraphics :=
  if releaseCache then
    { vg with mVGToEffectMap := Cache.empty State,
              mRectToScissorMap := Cache.empty RectI }
  else vg

end VectorGraphics

/-- Helper: the last element of a list extended by one. -/
theorem getLast?_append_single {α : Type} (l : List α) (a : α) :
    (l ++ [a]).getLast? = some a := by simp

/-- Helper: membership of the `getLast?` witness. -/
theorem mem_of_getLast?_eq_some {α : Type} {l : List α} {a : α}
    (h : l.getLast? = some a) : a ∈ l := by
  obtain ⟨hne, rfl⟩ := List.mem_getLast?_eq_getLast (Option.mem_def.mpr h)
  exact List.getLast_mem hne

/-- One attribute mutation or matrix change of the public mutator API
(§4.3): the operations a caller may perform between `pushState()` and
`popState()` that touch only the live DrawState and the current transform
matrix. -/
inductive Mutation
  | setColor (r g b a : ℚ)
  | setPointSize (n : Int)
  | setImage (img : Nat)
  | setPoint (img : Nat) (width : Int)
  | setTextureMode (m : Nat)
  | setLogicOp (op : Nat)
  | setLineWidth (w : ℚ)
  | setPointSmoothing (b : Bool)
  | setLineSmoothing (b : Bool)
  | setPolygonSmoothing (b : Bool)
  | setLineStipple (s : Nat)
  | setPolygonStipple (bytes : List Nat)
  | setAlphaFunc (f : Nat) (ref : ℚ)
  | setBlendFunc (srgb drgb salpha dalpha : Nat)
  | setBlendEquation (rgbEq alphaEq : Nat)
  | setColorMask (r g b a : Bool)
  | setStencilTestEnabled (b : Bool)
  | setStencilMask (m : Nat)
  | setStencilOp (sfail dpfail dppass : Nat)
  | setStencilFunc (f : Nat) (refv : Int) (mask : Nat)
  | setFont (f : Nat)
  | setDefaultFont
  | setMatrix (m : DMat4)
  | resetMatrix
deriving DecidableEq

/-- Dispatch a mutation to the corresponding context mutator. -/
def applyMut (m : Mutation) (vg : VectorGraphics) : VectorGraphics :=
  match m with
  | Mutation.setColor r g b a => vg.setColor r g b a
  | Mutation.setPointSize n => vg.setPointSize n
  | Mutation.setImage img => vg.setImage img
  | Mutation.setPoint img width => vg.setPoint img width
  | Mutation.setTextureMode tm => vg.setTextureMode tm
  | Mutation.setLogicOp op => vg.setLogicOp op
  | Mutation.setLineWidth w => vg.setLineWidth w
  | Mutation.setPointSmoothing b => vg.setPointSmoothing b
  | Mutation.setLineSmoothing b => vg.setLineSmoothing b
  | Mutation.setPolygonSmoothing b => vg.setPolygonSmoothing b
  | Mutation.setLineStipple s => vg.setLineStipple s
  | Mutation.setPolygonStipple bytes => vg.setPolygonStipple bytes
  | Mutation.setAlphaFunc f ref => vg.setAlphaFunc f ref
  | Mutation.setBlendFunc a b c d => vg.setBlendFunc a b c d
  | Mutation.setBlendEquation a b => vg.setBlendEquation a b
  | Mutation.setColorMask r g b a => vg.setColorMask r g b a
  | Mutation.setStencilTestEnabled b => vg.setStencilTestEnabled b
  | Mutation.setStencilMask sm => vg.setStencilMask sm
  | Mutation.setStencilOp a b c => vg.setStencilOp a b c
  | Mutation.setStencilFunc f refv mask => vg.setStencilFunc f refv mask
  | Mutation.setFont f => vg.setFont f
  | Mutation.setDefaultFont => vg.setDefaultFont
  | Mutation.setMatrix mat => vg.setMatrix mat
  | Mutation.resetMatrix => vg.resetMatrix

/-- A sequence of mutations applied left to right. -/
def applyMuts (ms : List Mutation) (vg : VectorGraphics) : VectorGraphics :=
  ms.foldl (fun g m => applyMut m g) vg

/-- Attribute mutations and matrix changes never touch the stacks. -/
theorem applyMut_stack_frame (m : Mutation) (vg : VectorGraphics) :
    (applyMut m vg).mStateStack = vg.mStateStack ∧
    (applyMut m vg).mMatrixStack = vg.mMatrixStack := by
  cases m <;> exact ⟨rfl, rfl⟩

/-- Sequences of mutations never touch the stacks. -/
theorem applyMuts_stack_frame (ms : List Mutation) (vg : VectorGraphics) :
    (applyMuts ms vg).mStateStack = vg.mStateStack ∧
    (applyMuts ms vg).mMatrixStack = vg.mMatrixStack := by
  induction ms generalizing vg with
  | nil => exact ⟨rfl, rfl⟩
  | cons m t ih =>
    obtain ⟨h1, h2⟩ := applyMut_stack_frame m vg
    obtain ⟨h3, h4⟩ := ih (applyMut m vg)
    exact ⟨h3.trans h1, h4.trans h2⟩

/-- C4: for every starting context and every sequence of attribute
mutations and matrix changes performed between `pushState()` and
`popState()`, the `popState()` succeeds and restores both the live
DrawState (every attribute) and the current transform matrix to their
values at the moment of the `pushState()` call, both taken from the same
top stack entries pushed as one atomic unit. -/
theorem C4_state_roundtrip (vg : VectorGraphics) (ms : List Mutation) :
    ∃ vg2, (applyMuts ms vg.pushState).popState = some vg2 ∧
      vg2.mState = vg.mState ∧ vg2.mMatrix = vg.mMatrix := by
  obtain ⟨hs, hm⟩ := applyMuts_stack_frame ms vg.pushState
  have hs2 : (applyMuts ms vg.pushState).mStateStack
      = vg.mStateStack ++ [vg.mState] := hs
  have hm2 : (applyMuts ms vg.pushState).mMatrixStack
      = vg.mMatrixStack ++ [vg.mMatrix] := hm
  unfold VectorGraphics.popState
  rw [hs2, hm2, getLast?_append_single, getLast?_append_single]
  exact ⟨_, rfl, rfl, rfl⟩

/-- C5: starting with no active clip region, `pushScissor(r1); pushScissor(r2)`
makes the active clip region the geometric intersection of `r1` and `r2`,
and two `popScissor()` calls succeed and restore the "no clipping" state. -/
theorem C5_clip_intersection (vg : VectorGraphics) (r1 r2 : RectI)
    (h : vg.mScissor = none) :
    (∃ s, ((vg.pushScissor r1).pushScissor r2).mScissor = some s ∧
        s.rect = r1.intersected r2) ∧
    (∃ vg3 vg4, ((vg.pushScissor r1).pushScissor r2).popScissor = some vg3 ∧
        vg3.popScissor = some vg4 ∧ vg4.mScissor = none) := by
  simp only [VectorGraphics.pushScissor, VectorGraphics.resolveScissor,
    VectorGraphics.popScissor, h]
  constructor
  · exact ⟨_, rfl, rfl⟩
  · simp [getLast?_append_single]

/-- C7: popping an empty matrix, state or scissor stack is an error
surfaced to the caller (`none`), never a silent no-op with a successful
result. -/
theorem C7_pop_underflow (vg : VectorGraphics) :
    (vg.mMatrixStack = [] → vg.popMatrix = none) ∧
    (vg.mStateStack = [] → vg.popState = none) ∧
    (vg.mScissorStack = [] → vg.popScissor = none) := by
  refine ⟨fun h => ?_, fun h => ?_, fun h => ?_⟩
  · unfold VectorGraphics.popMatrix; rw [h]; rfl
  · unfold VectorGraphics.popState; rw [h]; rfl
  · unfold VectorGraphics.popScissor; rw [h]; rfl

/-- Concrete instantiation of `C7_pop_underflow`: on a freshly constructed
context all three stacks are empty, and all three pops report the error. -/
theorem C7_pop_underflow_witness :
    VectorGraphics.empty.popMatrix = none ∧
    VectorGraphics.empty.popState = none ∧
    VectorGraphics.empty.popScissor = none :=
  ⟨(C7_pop_underflow VectorGraphics.empty).1 rfl,
   (C7_pop_underflow VectorGraphics.empty).2.1 rfl,
   (C7_pop_underflow VectorGraphics.empty).2.2 rfl⟩

/-- C8: `setTransform(t)` binds `t` to every actor already in the output
collection and changes nothing else: the collection keeps its length and
order (the renderable and effect of the i-th actor are unchanged), and the
live DrawState, current matrix, scissor and all three stacks are
untouched. -/
theorem C8_setTransform_bulk_bind (vg : VectorGraphics) (t : Nat) :
    (vg.setTransform t).mActors.map Actor.mTransform
        = vg.mActors.map (fun _ => t) ∧
    (vg.setTransform t).mActors.map Actor.mRenderable
        = vg.mActors.map Actor.mRenderable ∧
    (vg.setTransform t).mActors.map Actor.mEffect
        = vg.mActors.map Actor.mEffect ∧
    (vg.setTransform t).mActors.length = vg.mActors.length ∧
    (vg.setTransform t).mState = vg.mState ∧
    (vg.setTransform t).mMatrix = vg.mMatrix ∧
    (vg.setTransform t).mScissor = vg.mScissor ∧
    (vg.setTransform t).mStateStack = vg.mStateStack ∧
    (vg.setTransform t).mMatrixStack = vg.mMatrixStack ∧
    (vg.setTransform t).mScissorStack = vg.mScissorStack := by
  unfold VectorGraphics.setTransform
  refine ⟨?_, ?_, ?_, ?_, rfl, rfl, rfl, rfl, rfl, rfl⟩ <;>
    simp [List.map_map, Function.comp_def]

/-- C10: `startDrawing()` is observationally identical to `clear()` — its
header body is exactly `{ clear(); }` — so it produces the very same
resulting context, in particular emptying the output collection and
resetting the live state, matrix, scissor and all three stacks. -/
theorem C10_startDrawing_is_clear (vg : VectorGraphics) :
    vg.startDrawing = vg.clear ∧
    vg.startDrawing.mActors = [] ∧
    vg.startDrawing.mState = State.default ∧
    vg.startDrawing.mMatrix = DMat4.identity ∧
    vg.startDrawing.mScissor = none ∧
    vg.startDrawing.mStateStack = [] ∧
    vg.startDrawing.mMatrixStack = [] ∧
    vg.startDrawing.mScissorStack = [] :=
  ⟨rfl, rfl, rfl, rfl, rfl, rfl, rfl, rfl⟩

/-- Concrete instantiation of `C5_clip_intersection` (the spec's §8
scenario): pushing (0,0,100,100) then (50,50,200,200) on a fresh context. -/
theorem C5_clip_intersection_witness :
    VectorGraphics.empty.mScissor = none ∧
    ((∃ s, ((VectorGraphics.empty.pushScissor ⟨0, 0, 100, 100⟩).pushScissor
          ⟨50, 50, 200, 200⟩).mScissor = some s ∧
        s.rect = RectI.intersected ⟨0, 0, 100, 100⟩ ⟨50, 50, 200, 200⟩) ∧
     (∃ vg3 vg4, ((VectorGraphics.empty.pushScissor ⟨0, 0, 100, 100⟩).pushScissor
          ⟨50, 50, 200, 200⟩).popScissor = some vg3 ∧
        vg3.popScissor = some vg4 ∧ vg4.mScissor = none)) :=
  ⟨rfl, C5_clip_intersection VectorGraphics.empty ⟨0, 0, 100, 100⟩
     ⟨50, 50, 200, 200⟩ rfl⟩

/-- One public operation of the exposed drawing API (§6): an attribute or
matrix mutation, a stack operation, a scissor operation, a primitive
emission, a bulk transform bind, or a session-lifecycle call. -/
inductive Op
  | mutate (m : Mutation)
  | pushMatrix
  | popMatrix
  | pushState
  | popState
  | pushScissor (r : RectI)
  | popScissor
  | setScissor (r : RectI)
  | removeScissor
  | setTransform (t : Nat)
  | draw (payload : Nat)
  | clear
  | startDrawing
  | continueDrawing
  | endDrawing (releaseCache : Bool)

/-- Apply one public operation; the three pops signal stack underflow by
`none` (§7). -/
def applyOp (op : Op) (vg : VectorGraphics) : Option VectorGraphics :=
  match op with
  | Op.mutate m => some (applyMut m vg)
  | Op.pushMatrix => some vg.pushMatrix
  | Op.popMatrix => vg.popMatrix
  | Op.pushState => some vg.pushState
  | Op.popState => vg.popState
  | Op.pushScissor r => some (vg.pushScissor r)
  | Op.popScissor => vg.popScissor
  | Op.setScissor r => some (vg.setScissor r)
  | Op.removeScissor => some vg.removeScissor
  | Op.setTransform t => some (vg.setTransform t)
  | Op.draw p => some (vg.draw p)
  | Op.clear => some vg.clear
  | Op.startDrawing => some vg.startDrawing
  | Op.continueDrawing => some vg.continueDrawing
  | Op.endDrawing rc => some (vg.endDrawing rc)

/-- The contexts reachable from a freshly constructed `VectorGraphics()` by
any sequence of public operations. -/
inductive Reachable : VectorGraphics → Prop
  | init : Reachable VectorGraphics.empty
  | step {vg vg2 : VectorGraphics} (op : Op) :
      Reachable vg → applyOp op vg = some vg2 → Reachable vg2

/-- Each component of an `ivec4` color mask is 0 or 1. -/
def maskOK (s : State) : Prop :=
  (s.mColorMaskR = 0 ∨ s.mColorMaskR = 1) ∧
  (s.mColorMaskG = 0 ∨ s.mColorMaskG = 1) ∧
  (s.mColorMaskB = 0 ∨ s.mColorMaskB = 1) ∧
  (s.mColorMaskA = 0 ∨ s.mColorMaskA = 1)


/-- Invariant: in every reachable context, the live state and every state
saved on the state stack carry a 0/1 color mask. -/
theorem maskOK_reachable {vg : VectorGraphics} (h : Reachable vg) :
    maskOK vg.mState ∧ ∀ s ∈ vg.mStateStack, maskOK s := by
  induction h with
  | init =>
    exact ⟨⟨Or.inr rfl, Or.inr rfl, Or.inr rfl, Or.inr rfl⟩,
           fun s hs => absurd hs (List.not_mem_nil s)⟩
  | @step w w2 op hr happ ih =>
    cases op with
    | mutate m =>
      simp only [applyOp, Option.some.injEq] at happ
      subst happ
      cases m
      case setColorMask r g b a =>
        refine ⟨⟨?_, ?_, ?_, ?_⟩, ih.2⟩
        · cases r <;> simp [applyMut, VectorGraphics.setColorMask]
        · cases g <;> simp [applyMut, VectorGraphics.setColorMask]
        · cases b <;> simp [applyMut, VectorGraphics.setColorMask]
        · cases a <;> simp [applyMut, VectorGraphics.setColorMask]
      all_goals exact ih
    | pushMatrix =>
      simp only [applyOp, Option.some.injEq] at happ
      subst happ
      exact ih
    | popMatrix =>
      simp only [applyOp] at happ
      unfold VectorGraphics.popMatrix at happ
      cases hl : w.mMatrixStack.getLast? with
      | none => rw [hl] at happ; exact absurd happ (by simp)
      | some m =>
        rw [hl] at happ
        simp only [Option.some.injEq] at happ
        subst happ
        exact ih
    | pushState =>
      simp only [applyOp, Option.some.injEq] at happ
      subst happ
      refine ⟨ih.1, ?_⟩
      intro s hs
      have hs2 : s ∈ w.mStateStack ++ [w.mState] := hs
      rcases List.mem_append.mp hs2 with h1 | h1
      · exact ih.2 s h1
      · rw [List.mem_singleton.mp h1]
        exact ih.1
    | popState =>
      simp only [applyOp] at happ
      unfold VectorGraphics.popState at happ
      cases hls : w.mStateStack.getLast? with
      | none => rw [hls] at happ; exact absurd happ (by simp)
      | some s0 =>
        cases hlm : w.mMatrixStack.getLast? with
        | none => rw [hls, hlm] at happ; exact absurd happ (by simp)
        | some m0 =>
          rw [hls, hlm] at happ
          simp only [Option.some.injEq] at happ
          subst happ
          refine ⟨ih.2 s0 (mem_of_getLast?_eq_some hls), ?_⟩
          intro s hs
          exact ih.2 s (List.dropLast_subset _ hs)
    | pushScissor r =>
      simp only [applyOp, Option.some.injEq] at happ
      subst happ
      exact ih
    | popScissor =>
      simp only [applyOp] at happ
      unfold VectorGraphics.popScissor at happ
      cases hl : w.mScissorStack.getLast? with
      | none => rw [hl] at happ; exact absurd happ (by simp)
      | some s0 =>
        rw [hl] at happ
        simp only [Option.some.injEq] at happ
        subst happ
        exact ih
    | setScissor r =>
      simp only [applyOp, Option.some.injEq] at happ
      subst happ
      exact ih
    | removeScissor =>
      simp only [applyOp, Option.some.injEq] at happ
      subst happ
      exact ih
    | setTransform t =>
      simp only [applyOp, Option.some.injEq] at happ
      subst happ
      exact ih
    | draw p =>
      simp only [applyOp, Option.some.injEq] at happ
      subst happ
      exact ih
    | clear =>
      simp only [applyOp, Option.some.injEq] at happ
      subst happ
      exact ⟨⟨Or.inr rfl, Or.inr rfl, Or.inr rfl, Or.inr rfl⟩,
             fun s hs => absurd hs (List.not_mem_nil s)⟩
    | startDrawing =>
      simp only [applyOp, Option.some.injEq] at happ
      subst happ
      exact ⟨⟨Or.inr rfl, Or.inr rfl, Or.inr rfl, Or.inr rfl⟩,
             fun s hs => absurd hs (List.not_mem_nil s)⟩
    | continueDrawing =>
      simp only [applyOp, Option.some.injEq] at happ
      subst happ
      exact ⟨⟨Or.inr rfl, Or.inr rfl, Or.inr rfl, Or.inr rfl⟩,
             fun s hs => absurd hs (List.not_mem_nil s)⟩
    | endDrawing rc =>
      simp only [applyOp, Option.some.injEq] at happ
      subst happ
      cases rc
      · exact ih
      · exact ih

/-- C9: in every context reachable by any sequence of public operations,
each of the four components of the color mask (`colorMask()`, the live
state's `mColorMask`) is 0 or 1: `setColorMask` normalizes its boolean
arguments to 0/1, the default is (1,1,1,1), and no other operation writes
the field (state restores only re-install previously saved live states). -/
theorem C9_colorMask_zero_one (vg : VectorGraphics) (h : Reachable vg) :
    (vg.mState.mColorMaskR = 0 ∨ vg.mState.mColorMaskR = 1) ∧
    (vg.mState.mColorMaskG = 0 ∨ vg.mState.mColorMaskG = 1) ∧
    (vg.mState.mColorMaskB = 0 ∨ vg.mState.mColorMaskB = 1) ∧
    (vg.mState.mColorMaskA = 0 ∨ vg.mState.mColorMaskA = 1) :=
  (maskOK_reachable h).1

/-- Concrete instantiation of `C9_colorMask_zero_one` at the freshly
constructed context, which is reachable by the empty operation sequence. -/
theorem C9_colorMask_zero_one_witness :
    (VectorGraphics.empty.mState.mColorMaskR = 0 ∨
       VectorGraphics.empty.mState.mColorMaskR = 1) ∧
    (VectorGraphics.empty.mState.mColorMaskG = 0 ∨
       VectorGraphics.empty.mState.mColorMaskG = 1) ∧
    (VectorGraphics.empty.mState.mColorMaskB = 0 ∨
       VectorGraphics.empty.mState.mColorMaskB = 1) ∧
    (VectorGraphics.empty.mState.mColorMaskA = 0 ∨
       VectorGraphics.empty.mState.mColorMaskA = 1) :=
  C9_colorMask_zero_one VectorGraphics.empty Reachable.init
